import Mathlib

/-!
A verification development for the runtime type-checking engine in
`src/typeguard/_checkers.py`: a shallow embedding of the descriptor-dispatch
validation engine (the dispatch core `check_type_internal` and the structural
checkers `check_set`, `check_mapping`, `check_list`, `check_union`,
`check_literal`, `check_typed_dict`, `check_callable`, `check_number`,
`check_none`, `check_byteslike`), together with theorems settling the frozen
claims about it.

Modelling conventions:
 * Python runtime values are represented by the inductive `PyVal`; Python `==`
   is `pyEq` (booleans compare equal to the corresponding integers, as in
   Python), `repr`/`str` are `pyRepr`/`pyStr`, and the runtime type of a value
   (Python `type(v)`) is `pyTypeTag`.
 * Type annotations are represented, already decomposed into origin and
   parameters, by the inductive `Ann`; each constructor corresponds to an
   `(origin, args)` shape that `check_type_internal` dispatches on via the
   `origin_type_checkers` table of the source.
 * Raising is modelled by the result type `CheckOutcome`; a Python
   `TypeCheckError` is the `CheckErr.typeCheckError` variant, a Python
   `TypeError` is `CheckErr.typeError`, a `NameError` from forward-reference
   resolution is `CheckErr.nameError`.  Emitting a warning and returning
   normally is `CheckOutcome.okWarn`; callers treat it as success, since in
   the source warnings go to a side channel and the function returns `None`.
 * Recursive descent is made total with an explicit fuel parameter; the
   artificial `CheckErr.fuelExhausted` outcome marks exhaustion and occurs in
   no theorem about terminating runs.
-/

namespace TypeguardModel

/-- Kind of a parameter in an introspected callable signature
(`inspect.Parameter.kind`). -/
inductive ParamKind where
  | positionalOnly
  | positionalOrKeyword
  | varPositional
  | keywordOnly
  | varKeyword
deriving DecidableEq, Repr

/-- One parameter of an introspected signature: its name, kind, and whether it
has a default value (`param.default is not Parameter.empty`). -/
structure PyParam where
  name : String
  kind : ParamKind
  hasDefault : Bool
deriving DecidableEq, Repr

/-- A Python callable as far as `check_callable` can observe it:
`inspect.signature(value)` either raises (`signature = none`, modelling the
`TypeError`/`ValueError` branch) or yields a parameter list. -/
structure PyCallable where
  signature : Option (List PyParam)
deriving DecidableEq, Repr

/-- Python runtime values, restricted to the universe the checked fragment
manipulates.  Floats and complex numbers carry an integral payload standing
for their numeric value (no float arithmetic occurs in the checkers).  Bytes
carry their contents as a string of bytes.  An enum member is identified by
its class name and member name. -/
inductive PyVal where
  | noneVal
  | bool (b : Bool)
  | int (n : Int)
  | float (n : Int)
  | complex (n : Int)
  | str (s : String)
  | bytes (s : String)
  | enum (cls : String) (member : String)
  | list (xs : List PyVal)
  | tuple (xs : List PyVal)
  | dict (entries : List (PyVal × PyVal))
  | set (xs : List PyVal)
  | frozenset (xs : List PyVal)
  | callable (c : PyCallable)

/-- The numeric value of a Python number, if the value is one (`bool` is a
subtype of `int` in Python, so `True` counts as `1`). -/
def numVal : PyVal → Option Int
  | .bool b => some (if b then 1 else 0)
  | .int n => some n
  | .float n => some n
  | .complex n => some n
  | _ => Option.none

mutual

/-- Python `==` on the modelled values: numbers compare by numeric value
across `bool`/`int`/`float`/`complex`, containers compare elementwise, and
values of unrelated categories compare unequal.  Callables compare by
identity, which the model cannot observe, so they compare unequal. -/
def pyEq : PyVal → PyVal → Bool
  | .noneVal, .noneVal => true
  | .str a, .str b => a == b
  | .bytes a, .bytes b => a == b
  | .enum c1 m1, .enum c2 m2 => c1 == c2 && m1 == m2
  | .list xs, .list ys => pyEqList xs ys
  | .tuple xs, .tuple ys => pyEqList xs ys
  | .set xs, .set ys => pyEqList xs ys
  | .set xs, .frozenset ys => pyEqList xs ys
  | .frozenset xs, .set ys => pyEqList xs ys
  | .frozenset xs, .frozenset ys => pyEqList xs ys
  | .dict xs, .dict ys => pyEqPairs xs ys
  | a, b =>
      match numVal a, numVal b with
      | some x, some y => x == y
      | _, _ => false

def pyEqList : List PyVal → List PyVal → Bool
  | [], [] => true
  | x :: xs, y :: ys => pyEq x y && pyEqList xs ys
  | _, _ => false

def pyEqPairs : List (PyVal × PyVal) → List (PyVal × PyVal) → Bool
  | [], [] => true
  | (k1, v1) :: xs, (k2, v2) :: ys => pyEq k1 k2 && pyEq v1 v2 && pyEqPairs xs ys
  | _, _ => false

end

mutual

/-- Python `repr` of a modelled value (`{` and `}` written escaped). -/
def pyRepr : PyVal → String
  | .noneVal => "None"
  | .bool b => if b then "True" else "False"
  | .int n => toString n
  | .float n => toString n ++ ".0"
  | .complex n => toString n ++ "j"
  | .str s => "'" ++ s ++ "'"
  | .bytes s => "b'" ++ s ++ "'"
  | .enum cls member => "<" ++ cls ++ "." ++ member ++ ">"
  | .list xs => "[" ++ pyReprList xs ++ "]"
  | .tuple xs => "(" ++ pyReprList xs ++ ")"
  | .dict entries => "\x7b" ++ pyReprPairs entries ++ "\x7d"
  | .set xs => "\x7b" ++ pyReprList xs ++ "\x7d"
  | .frozenset xs => "frozenset(\x7b" ++ pyReprList xs ++ "\x7d)"
  | .callable _ => "<callable>"

def pyReprList : List PyVal → String
  | [] => ""
  | [x] => pyRepr x
  | x :: rest => pyRepr x ++ ", " ++ pyReprList rest

def pyReprPairs : List (PyVal × PyVal) → String
  | [] => ""
  | [(k, v)] => pyRepr k ++ ": " ++ pyRepr v
  | (k, v) :: rest => pyRepr k ++ ": " ++ pyRepr v ++ ", " ++ pyReprPairs rest

end

/-- Python `str` of a modelled value: identical to `repr` except that strings
render without quotes. -/
def pyStr : PyVal → String
  | .str s => s
  | v => pyRepr v

/-- The runtime type of a value, as compared by `type(x) is type(y)` in the
source; enum members carry their class. -/
inductive TypeTag where
  | noneT | boolT | intT | floatT | complexT | strT | bytesT
  | enumT (cls : String)
  | listT | tupleT | dictT | setT | frozensetT | callableT
deriving DecidableEq, Repr

/-- Python `type(v)` for the modelled values. -/
def pyTypeTag : PyVal → TypeTag
  | .noneVal => .noneT
  | .bool _ => .boolT
  | .int _ => .intT
  | .float _ => .floatT
  | .complex _ => .complexT
  | .str _ => .strT
  | .bytes _ => .bytesT
  | .enum cls _ => .enumT cls
  | .list _ => .listT
  | .tuple _ => .tupleT
  | .dict _ => .dictT
  | .set _ => .setT
  | .frozenset _ => .frozensetT
  | .callable _ => .callableT

/-- Modelled from the spec: the structured failure of a check
(`TypeCheckError` lives in `_exceptions.py`, outside this repository slice).
It carries a base reason and an ordered list of path segments; segments are
added innermost-first by `append_path_element` as the error is re-raised by
each enclosing frame, and the final rendering reads outer-to-inner. -/
structure TypeCheckError where
  reason : String
  path : List String
deriving DecidableEq, Repr

/-- Modelled from the spec: `append_path_element` records one more enclosing
frame's structural context (the source appends; rendering reverses). -/
def TypeCheckError.append_path_element (e : TypeCheckError) (seg : String) :
    TypeCheckError :=
  { e with path := e.path ++ [seg] }

/-- Modelled from the spec: the human-readable rendering of a
`TypeCheckError`, path segments outer-to-inner joined by " -> " and followed
by the reason (e.g. `value of key 'x' -> item 2: is not an instance of int`).
-/
def renderTypeCheckError (e : TypeCheckError) : String :=
  match e.path with
  | [] => e.reason
  | _ => String.intercalate " -> " e.path.reverse ++ ": " ++ e.reason

/-- The exception kinds the checked fragment can raise: a structural mismatch
(`TypeCheckError`), a declaration error (Python `TypeError`, deliberately a
different class in `check_literal`), a forward-reference resolution failure
(Python `NameError`), or the artificial fuel marker of the embedding. -/
inductive CheckErr where
  | typeCheckError (e : TypeCheckError)
  | typeError (msg : String)
  | nameError (name : String)
  | fuelExhausted
deriving DecidableEq, Repr

/-- Outcome of a check: normal return, normal return after emitting a warning
(the warning text is recorded), or a raised exception. -/
inductive CheckOutcome where
  | ok
  | okWarn (msg : String)
  | err (e : CheckErr)
deriving DecidableEq, Repr

/-- Whether the check returned normally (possibly after a warning). -/
def CheckOutcome.isSuccess : CheckOutcome → Bool
  | .ok => true
  | .okWarn _ => true
  | .err _ => false

/-- Modelled from the spec: the collection-sampling strategy interface of the
check context (`CollectionCheckStrategy` lives in `_config.py`, outside this
repository slice): given a container's elements, produce the possibly sampled
sequence of elements to actually check; the default strategy checks all. -/
structure CollectionCheckStrategy where
  iterate_samples : {α : Type} → List α → List α

/-- Modelled from the spec: the forward-reference policy of the check context
(`ForwardRefPolicy` lives in `_config.py`, outside this repository slice). -/
inductive ForwardRefPolicy where
  | ERROR
  | WARN
  | IGNORE
deriving DecidableEq, Repr

/-- Modelled from the spec: the configuration bundle threaded through checks
(`TypeCheckConfiguration` lives outside this repository slice). -/
structure TypeCheckConfiguration where
  forward_ref_policy : ForwardRefPolicy
  collection_check_strategy : CollectionCheckStrategy

/-- The origin used by `check_mapping`: `dict`/`Dict`, a mutable mapping
origin, or a general mapping origin. -/
inductive MappingOrigin where
  | dictO
  | mutableMappingO
  | mappingO
deriving DecidableEq, Repr

/-- The origin used by `check_set`: `frozenset`, or any of the set-family
origins (`set`, `Set`, `AbstractSet`, `collections.abc.Set`), which the
source distinguishes only by `origin_type is frozenset`. -/
inductive SetOrigin where
  | setO
  | frozensetO
deriving DecidableEq, Repr

/-- The origin used by `check_number`: `complex` or `float`. -/
inductive NumberOrigin where
  | complexO
  | floatO
deriving DecidableEq, Repr

/-- A member of a `Literal[...]` parameter list: either a value, or a nested
literal descriptor (a literal-of-literals, recognised in the source by
`_is_literal_type(get_origin(arg))`). -/
inductive LitArg where
  | val (v : PyVal)
  | nested (args : List LitArg)

/-- Type annotations, already decomposed into origin and parameters the way
`check_type_internal` decomposes them with `get_origin`/`get_args`.  Each
constructor names the checker the built-in lookup table routes it to; `intA`,
`strA` and `boolA` are concrete classes with no registered checker, handled
by the `isclass(origin_type)` fall-through. -/
inductive Ann where
  | any
  | noneA
  | intA
  | boolA
  | strA
  | bytesA
  | floatA
  | complexA
  | paramSpecA (name : String)
  | listA (args : List Ann)
  | mappingA (origin : MappingOrigin) (args : Option (Ann × Ann))
  | setA (origin : SetOrigin) (args : List Ann)
  | unionA (args : List Ann)
  | literalA (args : List LitArg)
  | callableBareA
  | callableA (items : List Ann) (ret : Ann)
  | callableEllipsisA (ret : Ann)
  | callablePspecA (ret : Ann)
  | typedDictA (fields : List (String × Ann)) (required : List String)
  | notRequiredA (a : Ann)
  | forwardRefA (name : String)

/-- The check context (`TypeCheckMemo` from `_memo.py`, outside this slice,
modelled from the spec): configuration plus the name-resolution environment
for forward references; `env name = some a` models successful
`evaluate_forwardref`, `none` models a `NameError`. -/
structure TypeCheckMemo where
  config : TypeCheckConfiguration
  env : String → Option Ann

/-- Modelled from the spec: forward-reference resolution against the
context's environment (`evaluate_forwardref` lives in `_utils.py`, outside
this repository slice); `none` is a `NameError`. -/
def evaluate_forwardref (memo : TypeCheckMemo) (name : String) : Option Ann :=
  memo.env name

/-- Python `isinstance(v, dict)`. -/
def PyVal.isDict : PyVal → Bool
  | .dict _ => true
  | _ => false

/-- Python `isinstance(v, collections.abc.Mapping)`; `dict` is the only mapping type
in the modelled value universe. -/
def isinstance_mapping : PyVal → Bool
  | .dict _ => true
  | _ => false

/-- Python `isinstance(v, collections.abc.MutableMapping)`; `dict` is the only
mutable mapping type in the modelled value universe. -/
def isinstance_mutable_mapping : PyVal → Bool
  | .dict _ => true
  | _ => false

/-- Python `isinstance(v, list)`. -/
def PyVal.isList : PyVal → Bool
  | .list _ => true
  | _ => false

/-- Python `isinstance(v, frozenset)`. -/
def PyVal.isFrozenset : PyVal → Bool
  | .frozenset _ => true
  | _ => false

/-- Python `isinstance(v, AbstractSet)`: both `set` and `frozenset` are instances of
the abstract set type. -/
def isinstance_abstract_set : PyVal → Bool
  | .set _ => true
  | .frozenset _ => true
  | _ => false

/-- Python `isinstance(v, int)`: `bool` is a subclass of `int` in Python. -/
def isinstance_int : PyVal → Bool
  | .int _ => true
  | .bool _ => true
  | _ => false

/-- Python `isinstance(v, str)`. -/
def isinstance_str : PyVal → Bool
  | .str _ => true
  | _ => false

/-- Python `isinstance(v, bool)`. -/
def isinstance_bool : PyVal → Bool
  | .bool _ => true
  | _ => false

/-- Python `isinstance(v, (float, int))`, as tested in `check_number` for a `float`
origin; `bool` counts as `int`. -/
def isinstance_float_or_int : PyVal → Bool
  | .float _ => true
  | .int _ => true
  | .bool _ => true
  | _ => false

/-- Python `isinstance(v, (complex, float, int))`, as tested in `check_number` for a
`complex` origin. -/
def isinstance_complex_float_int : PyVal → Bool
  | .complex _ => true
  | .float _ => true
  | .int _ => true
  | .bool _ => true
  | _ => false

/-- Python `isinstance(v, (bytearray, bytes, memoryview))`, as tested in
`check_byteslike`; `bytes` is the only bytes-like type in the modelled
universe. -/
def isinstance_byteslike : PyVal → Bool
  | .bytes _ => true
  | _ => false

/-- Iterating a Python value: the element sequence if the value is iterable
(`for v in value`), `none` when iteration would raise `TypeError`.  Strings
yield their one-character substrings, bytes yield integers, dicts yield their
keys. -/
def PyVal.iterElems : PyVal → Option (List PyVal)
  | .list xs => some xs
  | .tuple xs => some xs
  | .set xs => some xs
  | .frozenset xs => some xs
  | .dict entries => some (entries.map Prod.fst)
  | .str s => some (s.data.map (fun c => PyVal.str (String.mk [c])))
  | .bytes s => some (s.data.map (fun c => PyVal.int (Int.ofNat c.toNat)))
  | _ => Option.none

/-- The shape of `get_args` on a callable annotation, as consumed by
`check_callable`: absent (`Callable` unparameterized), an explicit
argument-type list (`args[0]` is a `list`), or an `Ellipsis`/`ParamSpec`
first parameter (not a `list`, so the body of the parameterized branch is
skipped). -/
inductive CallableArgsShape where
  | noArgs
  | listArgs (items : List Ann) (ret : Ann)
  | otherArgs (ret : Ann)

/-- A raised `TypeCheckError` with the given reason and no path segments. -/
def tceErr (msg : String) : CheckOutcome :=
  CheckOutcome.err (CheckErr.typeCheckError ⟨msg, []⟩)

/-- Display name of a mapping-family origin. -/
def mapping_origin_name : MappingOrigin → String
  | .dictO => "dict"
  | .mutableMappingO => "MutableMapping"
  | .mappingO => "Mapping"

/-- Display name of a set-family origin. -/
def set_origin_name : SetOrigin → String
  | .setO => "set"
  | .frozensetO => "frozenset"

mutual

/-- Modelled from the spec: the display name of a type descriptor, used as
the per-alternative key of an aggregate union error (`get_type_name` lives in
`_utils.py`, outside this repository slice). -/
def get_type_name : Ann → String
  | .any => "Any"
  | .noneA => "NoneType"
  | .intA => "int"
  | .boolA => "bool"
  | .strA => "str"
  | .bytesA => "bytes"
  | .floatA => "float"
  | .complexA => "complex"
  | .paramSpecA name => name
  | .listA [] => "list"
  | .listA args => "list[" ++ get_type_name_list args ++ "]"
  | .mappingA o Option.none => mapping_origin_name o
  | .mappingA o (some (k, v)) =>
      mapping_origin_name o ++ "[" ++ get_type_name k ++ ", " ++
        get_type_name v ++ "]"
  | .setA o [] => set_origin_name o
  | .setA o args => set_origin_name o ++ "[" ++ get_type_name_list args ++ "]"
  | .unionA args => "Union[" ++ get_type_name_list args ++ "]"
  | .literalA _ => "Literal"
  | .callableBareA => "Callable"
  | .callableA items ret =>
      "Callable[[" ++ get_type_name_list items ++ "], " ++
        get_type_name ret ++ "]"
  | .callableEllipsisA ret => "Callable[..., " ++ get_type_name ret ++ "]"
  | .callablePspecA ret => "Callable[P, " ++ get_type_name ret ++ "]"
  | .typedDictA _ _ => "TypedDict"
  | .notRequiredA a => "NotRequired[" ++ get_type_name a ++ "]"
  | .forwardRefA name => name

def get_type_name_list : List Ann → String
  | [] => ""
  | [a] => get_type_name a
  | a :: rest => get_type_name a ++ ", " ++ get_type_name_list rest

end

/-- Embedding of `check_callable` (source lines 146-203).  A non-callable value raises; a
parameterized annotation whose signature introspection raises
`TypeError`/`ValueError` returns immediately; an explicit argument-type list
without `ParamSpec` items triggers the keyword-only and arity checks, which
inspect only the count of the declared argument types. -/
def check_callable (value : PyVal) (args : CallableArgsShape) : CheckOutcome :=
  match value with
  | .callable c =>
      match args with
      | .noArgs => .ok
      | .otherArgs _ => .ok
      | .listArgs items _ =>
          match c.signature with
          | Option.none => .ok
          | some params =>
              if items.any (fun i =>
                  match i with
                  | .paramSpecA _ => true
                  | _ => false) then .ok
              else
                let unfulfilled_kwonlyargs :=
                  (params.filter (fun p =>
                    p.kind = ParamKind.keywordOnly && !p.hasDefault)).map
                      (fun p => p.name)
                if !unfulfilled_kwonlyargs.isEmpty then
                  tceErr ("has mandatory keyword-only arguments in its " ++
                    "declaration: " ++
                    String.intercalate ", " unfulfilled_kwonlyargs)
                else
                  let num_positional_args :=
                    (params.filter (fun p =>
                      p.kind = ParamKind.positionalOnly ||
                      p.kind = ParamKind.positionalOrKeyword)).length
                  let num_mandatory_pos_args :=
                    (params.filter (fun p =>
                      (p.kind = ParamKind.positionalOnly ||
                       p.kind = ParamKind.positionalOrKeyword) &&
                      !p.hasDefault)).length
                  let has_varargs :=
                    params.any (fun p => p.kind = ParamKind.varPositional)
                  if num_mandatory_pos_args > items.length then
                    tceErr ("has too many mandatory positional arguments in " ++
                      "its declaration; expected " ++ toString items.length ++
                      " but " ++ toString num_mandatory_pos_args ++
                      " mandatory positional argument(s) declared")
                  else if !has_varargs && num_positional_args < items.length then
                    tceErr ("has too few arguments in its declaration; " ++
                      "expected " ++ toString items.length ++ " but " ++
                      toString num_positional_args ++ " argument(s) declared")
                  else .ok
  | _ => tceErr "is not callable"

/-- Embedding of `check_number` (source lines 622-631): a `complex` origin accepts
complex, float and int values; a `float` origin accepts float and int
values. -/
def check_number (value : PyVal) (origin_type : NumberOrigin) : CheckOutcome :=
  if origin_type = NumberOrigin.complexO && !isinstance_complex_float_int value
  then tceErr "is neither complex, float or int"
  else if origin_type = NumberOrigin.floatO && !isinstance_float_or_int value
  then tceErr "is neither float or int"
  else .ok

/-- Embedding of `check_none` (source lines 612-619). -/
def check_none (value : PyVal) : CheckOutcome :=
  match value with
  | .noneVal => .ok
  | _ => tceErr "is not None"

/-- Embedding of `check_byteslike` (source lines 845-852). -/
def check_byteslike (value : PyVal) : CheckOutcome :=
  if isinstance_byteslike value then .ok else tceErr "is not bytes-like"

/-- Embedding of `check_paramspec` (source lines 875-881): a no-op. -/
def check_paramspec (_value : PyVal) : CheckOutcome := .ok

/-- The legality test for a flattened literal member (source line 572):
`arg is None or isinstance(arg, (int, str, bytes, bool, Enum))`. -/
def is_legal_literal_member : PyVal → Bool
  | .noneVal => true
  | .int _ => true
  | .str _ => true
  | .bytes _ => true
  | .bool _ => true
  | .enum _ _ => true
  | _ => false

mutual

/-- Flattening of one literal parameter inside `get_literal_args` (source
lines 567-579): a nested literal descriptor is flattened recursively, a legal
member value is kept, and anything else raises `TypeError` (deliberately a
different error class from `TypeCheckError`). -/
def get_literal_args_one : LitArg → Except String (List PyVal)
  | .nested inner => get_literal_args inner
  | .val v =>
      if is_legal_literal_member v then Except.ok [v]
      else Except.error ("Illegal literal value: " ++ pyStr v)

/-- Embedding of `get_literal_args` (source lines 567-579): flatten the parameter list of
a literal descriptor into the allowed-value list, or raise `TypeError` on the
first illegal member. -/
def get_literal_args : List LitArg → Except String (List PyVal)
  | [] => Except.ok []
  | a :: rest =>
      match get_literal_args_one a with
      | Except.error m => Except.error m
      | Except.ok xs =>
          match get_literal_args rest with
          | Except.error m => Except.error m
          | Except.ok ys => Except.ok (xs ++ ys)

end

/-- Python `final_args.index(value)` (source line 583): the index of the first
element that compares `==` to the value, if any. -/
def py_list_index (value : PyVal) : List PyVal → Option Nat
  | [] => Option.none
  | a :: rest =>
      if pyEq a value then some 0
      else (py_list_index value rest).map (fun i => i + 1)

/-- The `", ".join(repr(arg) for arg in final_args)` rendering of the
flattened literal members (source line 590). -/
def format_literal_args (final_args : List PyVal) : String :=
  String.intercalate ", " (final_args.map pyRepr)

/-- Embedding of `check_literal` (source lines 561-591): flatten the members (raising
`TypeError` for an illegal declaration), look up the first `==`-equal member,
and succeed only if that member also has the exact same runtime type as the
value; otherwise raise `is not any of (...)`. -/
def check_literal (value : PyVal) (args : List LitArg) : CheckOutcome :=
  match get_literal_args args with
  | Except.error msg => CheckOutcome.err (CheckErr.typeError msg)
  | Except.ok final_args =>
      match py_list_index value final_args with
      | some index =>
          if pyTypeTag (final_args.getD index PyVal.noneVal) = pyTypeTag value
          then .ok
          else tceErr ("is not any of (" ++ format_literal_args final_args ++ ")")
      | Option.none =>
          tceErr ("is not any of (" ++ format_literal_args final_args ++ ")")

/-- The element loop of `check_list` (source lines 297-304): each sampled
element is checked against the element type; a failing element's error gets
an `item i` path segment and is re-raised. -/
def seq_go (recheck : PyVal → Ann → CheckOutcome) (element_type : Ann)
    (i : Nat) : List PyVal → CheckOutcome
  | [] => .ok
  | v :: rest =>
      match recheck v element_type with
      | .err (.typeCheckError e) =>
          .err (.typeCheckError (e.append_path_element ("item " ++ toString i)))
      | .err e => .err e
      | _ => seq_go recheck element_type (i + 1) rest

/-- Embedding of `check_list` (source lines 288-304): category check, then the element
loop over `iterate_samples` when the parameters are present and are not
`(Any,)`. -/
def check_list (recheck : PyVal → Ann → CheckOutcome)
    (strategy : CollectionCheckStrategy) (value : PyVal)
    (args : List Ann) : CheckOutcome :=
  match value with
  | .list xs =>
      match args with
      | [] => .ok
      | [Ann.any] => .ok
      | a :: _ => seq_go recheck a 0 (strategy.iterate_samples xs)
  | _ => tceErr "is not a list"

/-- The key/value loop of `check_mapping` (source lines 226-237): the key is
checked with a `key <repr>` path segment on failure, then the value with a
`value of key <repr>` segment. -/
def mapping_go (recheck : PyVal → Ann → CheckOutcome)
    (key_type value_type : Ann) : List (PyVal × PyVal) → CheckOutcome
  | [] => .ok
  | (k, v) :: rest =>
      match recheck k key_type with
      | .err (.typeCheckError e) =>
          .err (.typeCheckError (e.append_path_element ("key " ++ pyRepr k)))
      | .err e => .err e
      | _ =>
          match recheck v value_type with
          | .err (.typeCheckError e) =>
              .err (.typeCheckError
                (e.append_path_element ("value of key " ++ pyRepr k)))
          | .err e => .err e
          | _ => mapping_go recheck key_type value_type rest

/-- Embedding of `check_mapping` (source lines 205-237): category check depending on the
origin, then the key/value loop over `iterate_samples(value.items())` when
the parameters are present and not both `Any`. -/
def check_mapping (recheck : PyVal → Ann → CheckOutcome)
    (strategy : CollectionCheckStrategy) (value : PyVal)
    (origin_type : MappingOrigin) (args : Option (Ann × Ann)) : CheckOutcome :=
  if origin_type = MappingOrigin.dictO && !value.isDict then
    tceErr "is not a dict"
  else if origin_type = MappingOrigin.mutableMappingO &&
      !isinstance_mutable_mapping value then
    tceErr "is not a mutable mapping"
  else if origin_type ≠ MappingOrigin.mutableMappingO &&
      !isinstance_mapping value then
    tceErr "is not a mapping"
  else
    match args with
    | Option.none => .ok
    | some (Ann.any, Ann.any) => .ok
    | some (key_type, value_type) =>
        match value with
        | .dict entries =>
            mapping_go recheck key_type value_type
              (strategy.iterate_samples entries)
        | _ => CheckOutcome.err (CheckErr.typeError "has no attribute items")

/-- The member loop of `check_set` as written in the source (lines 339-345):
a member failing its check has a path segment appended and then the loop
`break`s — the caught error is discarded and the function returns normally,
instead of re-raising. -/
def set_go (recheck : PyVal → Ann → CheckOutcome) (element_type : Ann) :
    List PyVal → CheckOutcome
  | [] => .ok
  | v :: rest =>
      match recheck v element_type with
      | .err (.typeCheckError _) => .ok
      | .err e => .err e
      | _ => set_go recheck element_type rest

/-- The parameterized part of `check_set` as written in the source (line
338): the member loop runs only when `args` is present and equals `(Any,)`
(`if args and args == (Any,)`); iterating a non-iterable value raises
`TypeError`. -/
def check_set_elements (recheck : PyVal → Ann → CheckOutcome)
    (strategy : CollectionCheckStrategy) (value : PyVal)
    (args : List Ann) : CheckOutcome :=
  match args with
  | [Ann.any] =>
      match value.iterElems with
      | some elems => set_go recheck Ann.any (strategy.iterate_samples elems)
      | Option.none => CheckOutcome.err (CheckErr.typeError "is not iterable")
  | _ => .ok

/-- Embedding of `check_set` as written in the source (lines 326-346).  The category step
is the source's: for a `frozenset` origin it raises `is a frozenset` when
`isinstance(value, frozenset)` holds, otherwise for the set-family origins it
raises `is a set` when `isinstance(value, AbstractSet)` holds; values that do
not trip those conditions fall through to the member step. -/
def check_set (recheck : PyVal → Ann → CheckOutcome)
    (strategy : CollectionCheckStrategy) (value : PyVal)
    (origin_type : SetOrigin) (args : List Ann) : CheckOutcome :=
  if origin_type = SetOrigin.frozensetO then
    if value.isFrozenset then tceErr "is a frozenset"
    else check_set_elements recheck strategy value args
  else
    if isinstance_abstract_set value then tceErr "is a set"
    else check_set_elements recheck strategy value args

/-- Insertion into an insertion-ordered Python `dict` used as the union
error accumulator: an existing key keeps its position and gets the new
value, a new key is appended. -/
def dictInsert (errors : List (String × String)) (k v : String) :
    List (String × String) :=
  match errors with
  | [] => [(k, v)]
  | (k', v') :: rest =>
      if k' = k then (k', v) :: rest else (k', v') :: dictInsert rest k v

/-- One line of text, with the source's `textwrap.indent(text, "  ")`
predicate: all-whitespace lines are left as they are. -/
def indent_line (l : String) : String :=
  if l.data.all (fun c =>
      c = ' ' || c = '\t' || c = '\r' || c = '\x0c' || c = '\x0b') then l
  else "  " ++ l

/-- Split a string at newline characters. -/
def split_lines_aux : List Char → List Char → List String
  | [], acc => [String.mk acc.reverse]
  | c :: cs, acc =>
      if c = '\n' then String.mk acc.reverse :: split_lines_aux cs []
      else split_lines_aux cs (c :: acc)

/-- Split a string at newline characters. -/
def split_lines (s : String) : List String :=
  split_lines_aux s.data []

/-- Python `textwrap.indent(text, "  ")` as used in `check_union` (source line
421). -/
def indent_two (s : String) : String :=
  String.intercalate "\n" ((split_lines s).map indent_line)

/-- The aggregate message of a failed union check (source lines 421-427):
each collected `(display name, rendered error)` pair becomes a `key: error`
line, the lines are joined, indented by two spaces, and appended to the
header. -/
def union_fail_msg (errors : List (String × String)) : String :=
  "did not match any element in the union:\n" ++
    indent_two (String.intercalate "\n"
      (errors.map (fun p => p.1 ++ ": " ++ p.2)))

/-- The alternative loop of `check_union` (source lines 412-427): the first
alternative whose check returns normally ends the whole check successfully;
a `TypeCheckError` is recorded under the alternative's display name and the
next alternative is tried; any other exception propagates; when the
alternatives are exhausted the aggregate error is raised. -/
def union_go (recheck : Ann → CheckOutcome)
    (errors : List (String × String)) : List Ann → CheckOutcome
  | [] => tceErr (union_fail_msg errors)
  | t :: rest =>
      match recheck t with
      | .err (.typeCheckError e) =>
          union_go recheck
            (dictInsert errors (get_type_name t) (renderTypeCheckError e)) rest
      | .err e => .err e
      | _ => .ok

/-- Embedding of `check_union` (source lines 406-427). -/
def check_union (recheck : Ann → CheckOutcome) (args : List Ann) :
    CheckOutcome :=
  union_go recheck [] args

/-- The non-short-circuiting restatement of the union error accumulator: the
`(display name, rendered error)` pairs collected over a list of
alternatives, starting from an accumulator. -/
def union_collect (recheck : Ann → CheckOutcome)
    (errors : List (String × String)) : List Ann → List (String × String)
  | [] => errors
  | t :: rest =>
      match recheck t with
      | .err (.typeCheckError e) =>
          union_collect recheck
            (dictInsert errors (get_type_name t) (renderTypeCheckError e)) rest
      | _ => union_collect recheck errors rest

/-- Python dict lookup `value.get(key, _missing)`: the value of the first
entry whose key compares `==` to the given key. -/
def dict_get (entries : List (PyVal × PyVal)) (key : PyVal) : Option PyVal :=
  match entries with
  | [] => Option.none
  | (k, v) :: rest => if pyEq k key then some v else dict_get rest key

/-- Insert a value into a list sorted by `repr` (used to model
`sorted(keys, key=repr)`). -/
def insert_by_repr (x : PyVal) : List PyVal → List PyVal
  | [] => [x]
  | y :: ys =>
      if pyRepr x ≤ pyRepr y then x :: y :: ys else y :: insert_by_repr x ys

/-- Python `sorted(keys, key=repr)`. -/
def sort_by_repr (l : List PyVal) : List PyVal :=
  l.foldr insert_by_repr []

/-- The `", ".join(f'"{key}"' for key in sorted(keys, key=repr))` formatting
of extra/missing typed-dict keys (source lines 258 and 275). -/
def format_dict_keys (keys : List PyVal) : String :=
  String.intercalate ", "
    ((sort_by_repr keys).map (fun k => "\"" ++ pyStr k ++ "\""))

/-- Python `set(value)`: the dict's keys with duplicates removed (a Python dict
cannot hold two `==`-equal keys, so this is the identity on faithful
models). -/
def dedup_keys_go (seen : List PyVal) : List PyVal → List PyVal
  | [] => []
  | k :: rest =>
      if seen.any (fun s => pyEq s k) then dedup_keys_go seen rest
      else k :: dedup_keys_go (k :: seen) rest

/-- Python `set(value)` over the dict's key list. -/
def dedup_keys (l : List PyVal) : List PyVal :=
  dedup_keys_go [] l

/-- Source `existing_keys = set(value)` (line 255). -/
def td_existing_keys (entries : List (PyVal × PyVal)) : List PyVal :=
  dedup_keys (entries.map Prod.fst)

/-- Source `extra_keys = existing_keys - declared_keys` (line 256), where the
declared keys are the field names of the typed-dict descriptor. -/
def td_extra_keys (fields : List (String × Ann))
    (entries : List (PyVal × PyVal)) : List PyVal :=
  (td_existing_keys entries).filter (fun k =>
    !(fields.any (fun f => pyEq k (PyVal.str f.1))))

/-- Evaluation of one typed-dict field annotation (source lines 263-265): a
`ForwardRef` annotation is resolved against the context's environment, with
`NameError` propagating on failure; other annotations pass through. -/
def eval_td_field (env : String → Option Ann) (a : Ann) :
    Except CheckErr Ann :=
  match a with
  | .forwardRefA name =>
      match env name with
      | some resolved => Except.ok resolved
      | Option.none => Except.error (CheckErr.nameError name)
  | _ => Except.ok a

/-- The `type_hints` loop of `check_typed_dict` (source lines 262-271): each
field annotation is forward-ref-evaluated, a `NotRequired[...]` wrapper is
detected and unwrapped (recording that the key is not required), and the
unwrapped annotation is kept in declaration order. -/
def resolve_type_hints (env : String → Option Ann) :
    List (String × Ann) → Except CheckErr (List (String × Bool × Ann))
  | [] => Except.ok []
  | (key, a) :: rest =>
      match eval_td_field env a with
      | Except.error e => Except.error e
      | Except.ok a' =>
          match resolve_type_hints env rest with
          | Except.error e => Except.error e
          | Except.ok tail =>
              match a' with
              | .notRequiredA inner => Except.ok ((key, true, inner) :: tail)
              | other => Except.ok ((key, false, other) :: tail)

/-- The `type_hints` that `resolve_type_hints` produces when no field
annotation is a forward reference (the pure restatement used in theorem
statements). -/
def td_hints (fields : List (String × Ann)) : List (String × Bool × Ann) :=
  fields.map (fun f =>
    match f.2 with
    | Ann.notRequiredA inner => (f.1, true, inner)
    | a => (f.1, false, a))

/-- The required keys after discarding `NotRequired` fields (source line
268). -/
def td_required_after (hints : List (String × Bool × Ann))
    (required : List String) : List String :=
  required.filter (fun r => !(hints.any (fun h => h.1 = r && h.2.1)))

/-- Source `missing_keys = required_keys - existing_keys` (line 273). -/
def td_missing_keys (hints : List (String × Bool × Ann))
    (required : List String) (entries : List (PyVal × PyVal)) : List String :=
  (td_required_after hints required).filter (fun r =>
    !((td_existing_keys entries).any (fun k => pyEq k (PyVal.str r))))

/-- Whether a typed-dict field annotation is not a top-level forward
reference (the hypothesis under which `resolve_type_hints` cannot raise). -/
def td_field_no_fref : String × Ann → Bool
  | (_, Ann.forwardRefA _) => false
  | _ => true

/-- The per-field loop of `check_typed_dict` (source lines 278-285): for each
declared field, if the key is present in the value its value is checked
against the (optionality-unwrapped) field annotation; a `TypeCheckError`
gets the `value of key '<name>'` path segment and is re-raised. -/
def typed_dict_fields_go (recheck : PyVal → Ann → CheckOutcome)
    (entries : List (PyVal × PyVal)) :
    List (String × Bool × Ann) → CheckOutcome
  | [] => .ok
  | (key, _, argtype) :: rest =>
      match dict_get entries (PyVal.str key) with
      | Option.none => typed_dict_fields_go recheck entries rest
      | some argvalue =>
          match recheck argvalue argtype with
          | .err (.typeCheckError e) =>
              .err (.typeCheckError
                (e.append_path_element ("value of key '" ++ key ++ "'")))
          | .err e => .err e
          | _ => typed_dict_fields_go recheck entries rest

/-- Embedding of `check_typed_dict` (source lines 240-285): the value must be a dict;
extra keys are reported first (sorted, all of them), then the field
annotations are resolved, then missing required keys are reported (sorted,
all of them), then each present key's value is checked. -/
def check_typed_dict (recheck : PyVal → Ann → CheckOutcome)
    (env : String → Option Ann) (value : PyVal)
    (fields : List (String × Ann)) (required : List String) : CheckOutcome :=
  match value with
  | .dict entries =>
      let extra_keys := td_extra_keys fields entries
      if !extra_keys.isEmpty then
        tceErr ("has unexpected extra key(s): " ++ format_dict_keys extra_keys)
      else
        match resolve_type_hints env fields with
        | Except.error e => CheckOutcome.err e
        | Except.ok hints =>
            let missing_keys := td_missing_keys hints required entries
            if !missing_keys.isEmpty then
              tceErr ("is missing required key(s): " ++
                format_dict_keys (missing_keys.map PyVal.str))
            else typed_dict_fields_go recheck entries hints
  | _ => tceErr "is not a dict"

/-- Embedding of `check_type_internal` (source lines 884-958), the dispatch core, made
total by a fuel parameter (recursion in the source is bounded only by
annotation nesting).  A forward reference is resolved first, with the
resolution failure governed by the forward-reference policy (raise under
`ERROR`, warn and return under `WARN`, silently return otherwise); `Any`
succeeds immediately; otherwise the annotation's origin selects the checker
per the `origin_type_checkers` table, and a concrete class origin with no
checker falls through to a plain `isinstance` check.  (The `Mock` and
inherits-from-`Any` exemptions and the `Annotated` unwrapping concern values
and annotations outside the modelled universe.) -/
def check_type_internal (fuel : Nat) (value : PyVal) (ann : Ann)
    (memo : TypeCheckMemo) : CheckOutcome :=
  match fuel with
  | 0 => CheckOutcome.err CheckErr.fuelExhausted
  | n + 1 =>
      match ann with
      | .forwardRefA name =>
          match evaluate_forwardref memo name with
          | some resolved => check_type_internal n value resolved memo
          | Option.none =>
              match memo.config.forward_ref_policy with
              | .ERROR => CheckOutcome.err (CheckErr.nameError name)
              | .WARN =>
                  .okWarn ("Cannot resolve forward reference '" ++ name ++ "'")
              | .IGNORE => .ok
      | .any => .ok
      | .noneA => check_none value
      | .intA =>
          if isinstance_int value then .ok
          else tceErr "is not an instance of int"
      | .boolA =>
          if isinstance_bool value then .ok
          else tceErr "is not an instance of bool"
      | .strA =>
          if isinstance_str value then .ok
          else tceErr "is not an instance of str"
      | .bytesA => check_byteslike value
      | .floatA => check_number value NumberOrigin.floatO
      | .complexA => check_number value NumberOrigin.complexO
      | .paramSpecA _ => check_paramspec value
      | .listA args =>
          check_list (fun v a => check_type_internal n v a memo)
            memo.config.collection_check_strategy value args
      | .mappingA origin args =>
          check_mapping (fun v a => check_type_internal n v a memo)
            memo.config.collection_check_strategy value origin args
      | .setA origin args =>
          check_set (fun v a => check_type_internal n v a memo)
            memo.config.collection_check_strategy value origin args
      | .unionA args =>
          check_union (fun t => check_type_internal n value t memo) args
      | .literalA args => check_literal value args
      | .callableBareA => check_callable value CallableArgsShape.noArgs
      | .callableA items ret =>
          check_callable value (CallableArgsShape.listArgs items ret)
      | .callableEllipsisA ret =>
          check_callable value (CallableArgsShape.otherArgs ret)
      | .callablePspecA ret =>
          check_callable value (CallableArgsShape.otherArgs ret)
      | .typedDictA fields required =>
          check_typed_dict (fun v a => check_type_internal n v a memo)
            memo.env value fields required
      | .notRequiredA _ => .ok

/-- The default check context used in concrete scenarios: `ERROR` policy,
the default all-elements sampling strategy, and an empty forward-reference
environment. -/
def memo0 : TypeCheckMemo :=
  { config :=
      { forward_ref_policy := ForwardRefPolicy.ERROR
        collection_check_strategy := { iterate_samples := fun l => l } }
    env := fun _ => Option.none }

/-- The recursive checker in the default context, i.e. the closure that
`check_type_internal` hands to the structural checkers. -/
def recheck0 : PyVal → Ann → CheckOutcome :=
  fun v a => check_type_internal 3 v a memo0

/-- C1: the claim states that a value of the wrong runtime set category makes
`check_set` fail with a category-mismatch reason and that a value of the
required category passes the category step (frozenset origin accepts
frozensets, set origin accepts sets).  The code does the opposite: the
category conditions are inverted, so a frozenset-origin check raises
`is a frozenset` exactly on frozensets, a set-origin check raises `is a set`
exactly on abstract-set instances, and wrong-category values sail through the
category step (an `int` passes an unparameterized set descriptor). -/
theorem c1_check_set_category_inverted :
    check_set recheck0 memo0.config.collection_check_strategy
      (PyVal.frozenset []) SetOrigin.frozensetO [] = tceErr "is a frozenset"
  ∧ check_set recheck0 memo0.config.collection_check_strategy
      (PyVal.set []) SetOrigin.setO [] = tceErr "is a set"
  ∧ check_set recheck0 memo0.config.collection_check_strategy
      (PyVal.int 42) SetOrigin.setO [] = CheckOutcome.ok
  ∧ check_set recheck0 memo0.config.collection_check_strategy
      (PyVal.int 42) SetOrigin.frozensetO [] = CheckOutcome.ok
  ∧ check_type_internal 3 (PyVal.frozenset [])
      (Ann.setA SetOrigin.frozensetO []) memo0 = tceErr "is a frozenset"
  ∧ check_type_internal 3 (PyVal.set [])
      (Ann.setA SetOrigin.setO []) memo0 = tceErr "is a set"
  ∧ check_type_internal 3 (PyVal.int 42)
      (Ann.setA SetOrigin.setO []) memo0 = CheckOutcome.ok := by
  refine ⟨by decide, by decide, by decide, by decide, by decide, by decide,
    by decide⟩

/-- C2: the claim states that a parameterized set descriptor with a non-`Any`
element type has every sampled member checked, member failures raising a
`TypeCheckError`.  In the code the member loop only runs when the parameter
list is exactly `(Any,)` (the condition is `args and args == (Any,)`), and a
caught member failure `break`s instead of re-raising.  Consequently the
string member `'x'` fails its own element check against `int`, yet the whole
check of the set `{'x'}` against the parameterized descriptor
`frozenset[int]` silently succeeds; and `set_go` discards a failing member
check outright. -/
theorem c2_check_set_member_checks_skipped :
    check_type_internal 5 (PyVal.str "x") Ann.intA memo0 =
      tceErr "is not an instance of int"
  ∧ check_type_internal 5 (PyVal.set [PyVal.str "x"])
      (Ann.setA SetOrigin.frozensetO [Ann.intA]) memo0 = CheckOutcome.ok
  ∧ check_set recheck0 memo0.config.collection_check_strategy
      (PyVal.set [PyVal.str "x"]) SetOrigin.frozensetO [Ann.intA] =
        CheckOutcome.ok
  ∧ set_go (fun _ _ => tceErr "member failure") Ann.intA [PyVal.int 1] =
      CheckOutcome.ok := by
  refine ⟨by decide, by decide, by decide, by decide⟩

/-- C3: checking `{"x": [1, 2, "y"]}` against a mapping-of-string-to-
list-of-int descriptor fails; the list checker contributes the `item 2`
segment, the mapping checker the `value of key 'x'` segment, and the
rendered error path reads
`value of key 'x' -> item 2: is not an instance of int`. -/
theorem c3_mapping_scenario_path :
    check_type_internal 10
      (PyVal.dict [(PyVal.str "x",
        PyVal.list [PyVal.int 1, PyVal.int 2, PyVal.str "y"])])
      (Ann.mappingA MappingOrigin.dictO
        (some (Ann.strA, Ann.listA [Ann.intA]))) memo0 =
      CheckOutcome.err (CheckErr.typeCheckError
        ⟨"is not an instance of int", ["item 2", "value of key 'x'"]⟩)
  ∧ renderTypeCheckError
      ⟨"is not an instance of int", ["item 2", "value of key 'x'"]⟩ =
      "value of key 'x' -> item 2: is not an instance of int" := by
  refine ⟨by decide, by decide⟩

/-- C9: a parameterized callable descriptor with an explicit argument-type
list accepts any callable whose signature cannot be introspected: when
`inspect.signature` raises, `check_callable` returns immediately, performing
no arity or keyword checks. -/
theorem c9_uninspectable_callable_passes (c : PyCallable) (items : List Ann)
    (ret : Ann) (h : c.signature = Option.none) :
    check_callable (PyVal.callable c)
      (CallableArgsShape.listArgs items ret) = CheckOutcome.ok := by
  simp [check_callable, h]

/-- C9 witness: a concrete un-introspectable callable passes
`Callable[[int], str]`. -/
theorem c9_witness :
    check_callable (PyVal.callable ⟨Option.none⟩)
      (CallableArgsShape.listArgs [Ann.intA] Ann.strA) = CheckOutcome.ok :=
  c9_uninspectable_callable_passes ⟨Option.none⟩ [Ann.intA] Ann.strA rfl

/-- C10: `check_number` widens the numeric tower: a `float` origin accepts
floats and ints (including bools, which are ints in Python), a `complex`
origin additionally accepts complex values, and every other value fails with
the category-mismatch reason. -/
theorem c10_check_number_numeric_tower (v : PyVal) :
    (check_number v NumberOrigin.floatO = CheckOutcome.ok ↔
      ((∃ n, v = PyVal.float n) ∨ (∃ n, v = PyVal.int n) ∨
        ∃ b, v = PyVal.bool b))
  ∧ (check_number v NumberOrigin.complexO = CheckOutcome.ok ↔
      ((∃ n, v = PyVal.complex n) ∨ (∃ n, v = PyVal.float n) ∨
        (∃ n, v = PyVal.int n) ∨ ∃ b, v = PyVal.bool b))
  ∧ (check_number v NumberOrigin.floatO = CheckOutcome.ok ∨
      check_number v NumberOrigin.floatO = tceErr "is neither float or int")
  ∧ (check_number v NumberOrigin.complexO = CheckOutcome.ok ∨
      check_number v NumberOrigin.complexO =
        tceErr "is neither complex, float or int") := by
  cases v <;>
    simp [check_number, isinstance_float_or_int, isinstance_complex_float_int,
      tceErr]

/-- C10 witness: an `int` passes the `float` origin check. -/
theorem c10_witness :
    check_number (PyVal.int 3) NumberOrigin.floatO = CheckOutcome.ok :=
  ((c10_check_number_numeric_tower (PyVal.int 3)).1).mpr
    (Or.inr (Or.inl ⟨3, rfl⟩))

/-- C7: a forward reference that fails to resolve against the context's
environment is governed by the forward-reference policy: `ERROR` re-raises
the resolution failure, `WARN` emits a warning and returns success, `IGNORE`
silently returns success. -/
theorem c7_forward_ref_policy (n : Nat) (value : PyVal) (name : String)
    (memo : TypeCheckMemo) (h : memo.env name = Option.none) :
    (memo.config.forward_ref_policy = ForwardRefPolicy.ERROR →
      check_type_internal (n + 1) value (Ann.forwardRefA name) memo =
        CheckOutcome.err (CheckErr.nameError name))
  ∧ (memo.config.forward_ref_policy = ForwardRefPolicy.WARN →
      check_type_internal (n + 1) value (Ann.forwardRefA name) memo =
        CheckOutcome.okWarn
          ("Cannot resolve forward reference '" ++ name ++ "'"))
  ∧ (memo.config.forward_ref_policy = ForwardRefPolicy.IGNORE →
      check_type_internal (n + 1) value (Ann.forwardRefA name) memo =
        CheckOutcome.ok) := by
  refine ⟨fun hp => ?_, fun hp => ?_, fun hp => ?_⟩ <;>
    simp [check_type_internal, evaluate_forwardref, h, hp]

/-- A `WARN`-policy variant of the default context. -/
def memoWarn : TypeCheckMemo :=
  { config :=
      { forward_ref_policy := ForwardRefPolicy.WARN
        collection_check_strategy := { iterate_samples := fun l => l } }
    env := fun _ => Option.none }

/-- An `IGNORE`-policy variant of the default context. -/
def memoIgnore : TypeCheckMemo :=
  { config :=
      { forward_ref_policy := ForwardRefPolicy.IGNORE
        collection_check_strategy := { iterate_samples := fun l => l } }
    env := fun _ => Option.none }

/-- C7 witness: the three policies exercised on the unresolvable forward
reference `"X"` in concrete contexts. -/
theorem c7_witness :
    check_type_internal 1 (PyVal.int 0) (Ann.forwardRefA "X") memo0 =
      CheckOutcome.err (CheckErr.nameError "X")
  ∧ check_type_internal 1 (PyVal.int 0) (Ann.forwardRefA "X") memoWarn =
      CheckOutcome.okWarn ("Cannot resolve forward reference '" ++ "X" ++ "'")
  ∧ check_type_internal 1 (PyVal.int 0) (Ann.forwardRefA "X") memoIgnore =
      CheckOutcome.ok :=
  ⟨(c7_forward_ref_policy 0 (PyVal.int 0) "X" memo0 rfl).1 rfl,
   (c7_forward_ref_policy 0 (PyVal.int 0) "X" memoWarn rfl).2.1 rfl,
   (c7_forward_ref_policy 0 (PyVal.int 0) "X" memoIgnore rfl).2.2 rfl⟩

mutual

/-- Whether a literal parameter contains (after flattening) a member that is
not `None`, an int, str, bytes, bool, or enum member. -/
def lit_arg_has_illegal : LitArg → Bool
  | .val v => !is_legal_literal_member v
  | .nested inner => lit_args_have_illegal inner

/-- Whether a literal parameter list contains an illegal flattened member. -/
def lit_args_have_illegal : List LitArg → Bool
  | [] => false
  | a :: rest => lit_arg_has_illegal a || lit_args_have_illegal rest

end

mutual

/-- Flattening one literal parameter that contains an illegal member raises
`TypeError`. -/
theorem lit_one_illegal_error (a : LitArg)
    (h : lit_arg_has_illegal a = true) :
    ∃ msg, get_literal_args_one a = Except.error msg := by
  match a with
  | .val v =>
      refine ⟨"Illegal literal value: " ++ pyStr v, ?_⟩
      have hv : is_legal_literal_member v = false := by
        simpa [lit_arg_has_illegal] using h
      simp [get_literal_args_one, hv]
  | .nested inner =>
      have h' : lit_args_have_illegal inner = true := by
        simpa [lit_arg_has_illegal] using h
      obtain ⟨msg, hm⟩ := lit_list_illegal_error inner h'
      exact ⟨msg, by simpa [get_literal_args_one] using hm⟩

/-- Flattening a literal parameter list that contains an illegal member
raises `TypeError`. -/
theorem lit_list_illegal_error (args : List LitArg)
    (h : lit_args_have_illegal args = true) :
    ∃ msg, get_literal_args args = Except.error msg := by
  match args with
  | [] => simp [lit_args_have_illegal] at h
  | a :: rest =>
      rcases hone : get_literal_args_one a with msg | xs
      · exact ⟨msg, by simp [get_literal_args, hone]⟩
      · have ha : lit_arg_has_illegal a = false := by
          by_contra hc
          obtain ⟨m, hm⟩ :=
            lit_one_illegal_error a (by revert hc; cases lit_arg_has_illegal a <;> simp)
          rw [hone] at hm
          cases hm
        have hr : lit_args_have_illegal rest = true := by
          have := h
          simp [lit_args_have_illegal, ha] at this
          exact this
        obtain ⟨m, hm⟩ := lit_list_illegal_error rest hr
        exact ⟨m, by simp [get_literal_args, hone, hm]⟩

end

/-- C8: a literal descriptor whose flattened member list contains an illegal
member (not `None`, int, str, bytes, bool, or an enum member) makes
`check_literal` raise a declaration error — a Python `TypeError`, an error
kind distinct from the structural-mismatch `TypeCheckError` — and it does so
regardless of the value being checked. -/
theorem c8_illegal_literal_is_declaration_error (args : List LitArg)
    (h : lit_args_have_illegal args = true) :
    ∃ msg,
      (∀ value, check_literal value args =
        CheckOutcome.err (CheckErr.typeError msg))
      ∧ ∀ e, CheckErr.typeError msg ≠ CheckErr.typeCheckError e := by
  obtain ⟨msg, hm⟩ := lit_list_illegal_error args h
  refine ⟨msg, fun value => ?_, fun e => by simp⟩
  simp [check_literal, hm]

/-- C8 witness: a literal containing the illegal member `[]` (a list) raises
the declaration error for every checked value. -/
theorem c8_witness :
    ∃ msg,
      (∀ value, check_literal value [LitArg.val (PyVal.list [])] =
        CheckOutcome.err (CheckErr.typeError msg))
      ∧ ∀ e, CheckErr.typeError msg ≠ CheckErr.typeCheckError e :=
  c8_illegal_literal_is_declaration_error [LitArg.val (PyVal.list [])]
    (by decide)

/-- Lemma: `py_list_index` finds exactly the first `==`-equal element: it returns
`some i` iff position `i` holds an `==`-equal element and no earlier
position does. -/
theorem py_list_index_spec (value : PyVal) (l : List PyVal) (i : Nat) :
    py_list_index value l = some i ↔
      i < l.length ∧
      (∀ j, j < i → pyEq (l.getD j PyVal.noneVal) value = false) ∧
      pyEq (l.getD i PyVal.noneVal) value = true := by
  induction l generalizing i with
  | nil => simp [py_list_index]
  | cons a rest ih =>
      cases hb : pyEq a value with
      | true =>
          simp only [py_list_index, hb, if_pos]
          constructor
          · intro h
            have hi : i = 0 := by
              have := Option.some.inj h
              omega
            subst hi
            exact ⟨by simp, fun j hj => absurd hj (Nat.not_lt_zero j),
              by simpa using hb⟩
          · rintro ⟨hlen, hbef, hat⟩
            cases i with
            | zero => rfl
            | succ i' =>
                have := hbef 0 (Nat.succ_pos i')
                simp [hb] at this
      | false =>
          simp only [py_list_index, hb, if_neg, Bool.false_eq_true,
            not_false_eq_true, Option.map_eq_some']
          constructor
          · rintro ⟨i', hi', rfl⟩
            obtain ⟨hlen, hbef, hat⟩ := (ih i').mp hi'
            refine ⟨by simpa using Nat.succ_lt_succ hlen, fun j hj => ?_,
              by simpa using hat⟩
            cases j with
            | zero => simpa using hb
            | succ j' => simpa using hbef j' (by omega)
          · rintro ⟨hlen, hbef, hat⟩
            cases i with
            | zero => simp [hb] at hat
            | succ i' =>
                refine ⟨i', (ih i').mpr ⟨by simpa using hlen, fun j hj => ?_,
                  by simpa using hat⟩, rfl⟩
                simpa using hbef (j + 1) (by omega)

/-- C5: a value satisfies `check_literal` iff the flattened allowed-value
list has a first `==`-matching member and that matched member has the exact
same runtime type as the value; in particular a `True` literal rejects the
integer `1` and a `1` literal rejects the boolean `True`, while exact
matches are accepted. -/
theorem c5_check_literal_exact_type (args : List LitArg)
    (final_args : List PyVal) (value : PyVal)
    (h : get_literal_args args = Except.ok final_args) :
    (check_literal value args = CheckOutcome.ok ↔
      ∃ i, i < final_args.length ∧
        (∀ j, j < i → pyEq (final_args.getD j PyVal.noneVal) value = false) ∧
        pyEq (final_args.getD i PyVal.noneVal) value = true ∧
        pyTypeTag (final_args.getD i PyVal.noneVal) = pyTypeTag value)
  ∧ check_literal (PyVal.int 1) [LitArg.val (PyVal.bool true)] =
      tceErr "is not any of (True)"
  ∧ check_literal (PyVal.bool true) [LitArg.val (PyVal.int 1)] =
      tceErr "is not any of (1)"
  ∧ check_literal (PyVal.bool true) [LitArg.val (PyVal.bool true)] =
      CheckOutcome.ok
  ∧ check_literal (PyVal.int 1) [LitArg.val (PyVal.int 1)] =
      CheckOutcome.ok := by
  refine ⟨?_, by decide, by decide, by decide, by decide⟩
  rcases hidx : py_list_index value final_args with _ | i
  · simp only [check_literal, h, hidx]
    constructor
    · intro hok
      simp [tceErr] at hok
    · rintro ⟨i, hlen, hbef, hat, _⟩
      have hsome := (py_list_index_spec value final_args i).mpr ⟨hlen, hbef, hat⟩
      rw [hidx] at hsome
      cases hsome
  · obtain ⟨hlen, hbef, hat⟩ := (py_list_index_spec value final_args i).mp hidx
    by_cases ht : pyTypeTag (final_args.getD i PyVal.noneVal) = pyTypeTag value
    · simp only [check_literal, h, hidx]
      rw [if_pos ht]
      exact ⟨fun _ => ⟨i, hlen, hbef, hat, ht⟩, fun _ => rfl⟩
    · simp only [check_literal, h, hidx]
      rw [if_neg ht]
      constructor
      · intro hok
        simp [tceErr] at hok
      · rintro ⟨i', hlen', hbef', hat', ht'⟩
        have hsome := (py_list_index_spec value final_args i').mpr
          ⟨hlen', hbef', hat'⟩
        rw [hidx] at hsome
        have hii : i' = i := (Option.some.inj hsome).symm
        subst hii
        exact absurd ht' ht

/-- C5 witness: `Literal[1, "a"]` matched at the second member by the exact
string `"a"`. -/
theorem c5_witness :
    check_literal (PyVal.str "a")
      [LitArg.val (PyVal.int 1), LitArg.val (PyVal.str "a")] =
      CheckOutcome.ok :=
  ((c5_check_literal_exact_type
      [LitArg.val (PyVal.int 1), LitArg.val (PyVal.str "a")]
      [PyVal.int 1, PyVal.str "a"] (PyVal.str "a") rfl).1).mpr
    ⟨1, by decide, fun j hj => by
      have : j = 0 := by omega
      subst this
      decide, by decide, by decide⟩

/-- If every alternative in a prefix fails with a `TypeCheckError` and the
next alternative's check returns normally, the union loop succeeds — whatever
alternatives follow and whatever errors were already collected. -/
theorem union_go_first_success (recheck : Ann → CheckOutcome) :
    ∀ (pre : List Ann) (errors : List (String × String)) (t : Ann)
      (post : List Ann),
      (∀ u ∈ pre, ∃ e,
        recheck u = CheckOutcome.err (CheckErr.typeCheckError e)) →
      (recheck t).isSuccess = true →
      union_go recheck errors (pre ++ t :: post) = CheckOutcome.ok := by
  intro pre
  induction pre with
  | nil =>
      intro errors t post _ ht
      rcases hr : recheck t with _ | m | e
      · simp [union_go, hr]
      · simp [union_go, hr]
      · rw [hr] at ht
        simp [CheckOutcome.isSuccess] at ht
  | cons u pre ih =>
      intro errors t post hpre ht
      obtain ⟨e, he⟩ := hpre u (List.mem_cons_self u pre)
      simp only [List.cons_append, union_go, he]
      exact ih _ t post (fun u' hu' => hpre u' (List.mem_cons_of_mem u hu')) ht

/-- If every alternative fails with a `TypeCheckError`, the union loop raises
the aggregate error built from the collected per-alternative entries. -/
theorem union_go_all_fail (recheck : Ann → CheckOutcome) :
    ∀ (l : List Ann) (errors : List (String × String)),
      (∀ t ∈ l, ∃ e,
        recheck t = CheckOutcome.err (CheckErr.typeCheckError e)) →
      union_go recheck errors l =
        tceErr (union_fail_msg (union_collect recheck errors l)) := by
  intro l
  induction l with
  | nil => intro errors _; simp [union_go, union_collect]
  | cons t rest ih =>
      intro errors h
      obtain ⟨e, he⟩ := h t (List.mem_cons_self t rest)
      simp only [union_go, union_collect, he]
      exact ih _ (fun u hu => h u (List.mem_cons_of_mem t hu))

/-- If the union loop succeeds, some alternative's check returned
normally. -/
theorem union_go_ok_exists (recheck : Ann → CheckOutcome) :
    ∀ (l : List Ann) (errors : List (String × String)),
      union_go recheck errors l = CheckOutcome.ok →
      ∃ t ∈ l, (recheck t).isSuccess = true := by
  intro l
  induction l with
  | nil => intro errors h; simp [union_go, tceErr] at h
  | cons t rest ih =>
      intro errors h
      rcases hr : recheck t with _ | m | e
      · exact ⟨t, List.mem_cons_self t rest, by simp [hr, CheckOutcome.isSuccess]⟩
      · exact ⟨t, List.mem_cons_self t rest, by simp [hr, CheckOutcome.isSuccess]⟩
      · rcases e with e' | msg | nm | _
        · simp only [union_go, hr] at h
          obtain ⟨t', ht', hs⟩ := ih _ h
          exact ⟨t', List.mem_cons_of_mem t ht', hs⟩
        all_goals
          simp only [union_go, hr] at h
          cases h

/-- C4: `check_union` tries the alternatives in declaration order and
succeeds as soon as one alternative's check succeeds, regardless of the
alternatives after it; it raises the single aggregate error — whose message
enumerates, per alternative keyed by the member type's display name, that
alternative's failure reason — when every alternative fails; and a
successful union always has a successful alternative. -/
theorem c4_check_union_spec (recheck : Ann → CheckOutcome) (args : List Ann) :
    (∀ pre t post, args = pre ++ t :: post →
      (∀ u ∈ pre, ∃ e,
        recheck u = CheckOutcome.err (CheckErr.typeCheckError e)) →
      (recheck t).isSuccess = true →
      check_union recheck args = CheckOutcome.ok)
  ∧ ((∀ t ∈ args, ∃ e,
        recheck t = CheckOutcome.err (CheckErr.typeCheckError e)) →
      check_union recheck args =
        tceErr (union_fail_msg (union_collect recheck [] args)))
  ∧ (check_union recheck args = CheckOutcome.ok →
      ∃ t ∈ args, (recheck t).isSuccess = true) := by
  refine ⟨?_, ?_, ?_⟩
  · intro pre t post hsplit hpre ht
    rw [hsplit]
    exact union_go_first_success recheck pre [] t post hpre ht
  · intro h
    exact union_go_all_fail recheck args [] h
  · intro h
    exact union_go_ok_exists recheck args [] h

/-- The recursive checker used in the C4 witness: the value `5` checked in
the default context. -/
def recheckC4 : Ann → CheckOutcome :=
  fun t => check_type_internal 3 (PyVal.int 5) t memo0

/-- C4 witness: for `Union[str, int]` and the value `5`, the first
alternative fails with a `TypeCheckError`, the second succeeds, and the
union check succeeds. -/
theorem c4_witness : check_union recheckC4 [Ann.strA, Ann.intA] =
    CheckOutcome.ok :=
  (c4_check_union_spec recheckC4 [Ann.strA, Ann.intA]).1 [Ann.strA] Ann.intA
    [] rfl
    (fun u hu => by
      have hu' : u = Ann.strA := by simpa using hu
      subst hu'
      exact ⟨⟨"is not an instance of str", []⟩, by decide⟩)
    (by decide)

/-- When no field annotation is a top-level forward reference, resolving the
type hints cannot raise and produces exactly the optionality-unwrapped
hints. -/
theorem resolve_type_hints_no_fref (env : String → Option Ann) :
    ∀ fields : List (String × Ann),
      (∀ f ∈ fields, td_field_no_fref f = true) →
      resolve_type_hints env fields = Except.ok (td_hints fields) := by
  intro fields
  induction fields with
  | nil => intro _; simp [resolve_type_hints, td_hints]
  | cons f rest ih =>
      intro h
      obtain ⟨key, a⟩ := f
      have hrest := ih (fun g hg => h g (List.mem_cons_of_mem _ hg))
      have hf := h (key, a) (List.mem_cons_self _ _)
      have heval : eval_td_field env a = Except.ok a := by
        cases a <;> simp_all [eval_td_field, td_field_no_fref]
      simp only [resolve_type_hints, heval, hrest]
      cases a <;> simp [td_hints]

/-- The typed-dict field loop skips a prefix of fields that are either absent
from the value or whose present value's check returns normally. -/
theorem typed_dict_go_prefix (recheck : PyVal → Ann → CheckOutcome)
    (entries : List (PyVal × PyVal)) :
    ∀ (pre rest : List (String × Bool × Ann)),
      (∀ g ∈ pre, ∀ v, dict_get entries (PyVal.str g.1) = some v →
        (recheck v g.2.2).isSuccess = true) →
      typed_dict_fields_go recheck entries (pre ++ rest) =
        typed_dict_fields_go recheck entries rest := by
  intro pre
  induction pre with
  | nil => intro rest _; simp
  | cons f pre ih =>
      intro rest hp
      obtain ⟨key, nr, a⟩ := f
      rcases hg : dict_get entries (PyVal.str key) with _ | v
      · simp only [List.cons_append, typed_dict_fields_go, hg]
        exact ih rest (fun g hg' => hp g (List.mem_cons_of_mem _ hg'))
      · have hs := hp (key, nr, a) (List.mem_cons_self _ _) v hg
        rcases hr : recheck v a with _ | m | e
        · simp only [List.cons_append, typed_dict_fields_go, hg, hr]
          exact ih rest (fun g hg' => hp g (List.mem_cons_of_mem _ hg'))
        · simp only [List.cons_append, typed_dict_fields_go, hg, hr]
          exact ih rest (fun g hg' => hp g (List.mem_cons_of_mem _ hg'))
        · rw [hr] at hs
          simp [CheckOutcome.isSuccess] at hs

/-- The typed-dict field loop succeeds when every present field's value
checks successfully. -/
theorem typed_dict_go_all_ok (recheck : PyVal → Ann → CheckOutcome)
    (entries : List (PyVal × PyVal)) (hints : List (String × Bool × Ann))
    (h : ∀ g ∈ hints, ∀ v, dict_get entries (PyVal.str g.1) = some v →
      (recheck v g.2.2).isSuccess = true) :
    typed_dict_fields_go recheck entries hints = CheckOutcome.ok := by
  have hpre := typed_dict_go_prefix recheck entries hints [] h
  simpa [typed_dict_fields_go] using hpre

/-- C6: for a record (typed-dict) descriptor and a plain-dict value,
`check_typed_dict` first reports all undeclared extra keys (sorted), then —
when the field annotations resolve — all absent required keys (sorted,
after `NotRequired` unwrapping removed optional keys), and otherwise checks
each present key's value against its optionality-unwrapped field annotation,
a per-field failure carrying the `value of key '<name>'` path segment; when
every present field's value checks successfully the whole check succeeds. -/
theorem c6_check_typed_dict_spec (recheck : PyVal → Ann → CheckOutcome)
    (env : String → Option Ann) (fields : List (String × Ann))
    (required : List String) (entries : List (PyVal × PyVal)) :
    ((td_extra_keys fields entries).isEmpty = false →
      check_typed_dict recheck env (PyVal.dict entries) fields required =
        tceErr ("has unexpected extra key(s): " ++
          format_dict_keys (td_extra_keys fields entries)))
  ∧ ((∀ f ∈ fields, td_field_no_fref f = true) →
     (td_extra_keys fields entries).isEmpty = true →
     (td_missing_keys (td_hints fields) required entries).isEmpty = false →
      check_typed_dict recheck env (PyVal.dict entries) fields required =
        tceErr ("is missing required key(s): " ++
          format_dict_keys
            ((td_missing_keys (td_hints fields) required entries).map
              PyVal.str)))
  ∧ ((∀ f ∈ fields, td_field_no_fref f = true) →
     (td_extra_keys fields entries).isEmpty = true →
     (td_missing_keys (td_hints fields) required entries).isEmpty = true →
     ∀ pre key nr a post, td_hints fields = pre ++ (key, nr, a) :: post →
      (∀ g ∈ pre, ∀ v, dict_get entries (PyVal.str g.1) = some v →
        (recheck v g.2.2).isSuccess = true) →
      ∀ v e, dict_get entries (PyVal.str key) = some v →
        recheck v a = CheckOutcome.err (CheckErr.typeCheckError e) →
        check_typed_dict recheck env (PyVal.dict entries) fields required =
          CheckOutcome.err (CheckErr.typeCheckError
            (e.append_path_element ("value of key '" ++ key ++ "'"))))
  ∧ ((∀ f ∈ fields, td_field_no_fref f = true) →
     (td_extra_keys fields entries).isEmpty = true →
     (td_missing_keys (td_hints fields) required entries).isEmpty = true →
     (∀ g ∈ td_hints fields, ∀ v,
        dict_get entries (PyVal.str g.1) = some v →
        (recheck v g.2.2).isSuccess = true) →
      check_typed_dict recheck env (PyVal.dict entries) fields required =
        CheckOutcome.ok) := by
  refine ⟨?_, ?_, ?_, ?_⟩
  · intro h1
    simp [check_typed_dict, h1]
  · intro h0 h1 h2
    simp [check_typed_dict, h1, h2, resolve_type_hints_no_fref env fields h0]
  · intro h0 h1 h2 pre key nr a post hsplit hpre v e hv hre
    have hres := resolve_type_hints_no_fref env fields h0
    simp only [check_typed_dict, h1, h2, hres, Bool.not_true,
      Bool.false_eq_true, if_false]
    rw [hsplit,
      typed_dict_go_prefix recheck entries pre ((key, nr, a) :: post) hpre]
    simp [typed_dict_fields_go, hv, hre]
  · intro h0 h1 h2 hall
    have hres := resolve_type_hints_no_fref env fields h0
    simp only [check_typed_dict, h1, h2, hres, Bool.not_true,
      Bool.false_eq_true, if_false]
    exact typed_dict_go_all_ok recheck entries (td_hints fields) hall

/-- C6 witness: the record `{required "a", optional "b" (NotRequired)}`
applied to the value `{"a": 1, "c": 2}` fails listing the extra key `c`. -/
theorem c6_witness :
    check_typed_dict recheck0 (fun _ => Option.none)
      (PyVal.dict [(PyVal.str "a", PyVal.int 1), (PyVal.str "c", PyVal.int 2)])
      [("a", Ann.intA), ("b", Ann.notRequiredA Ann.intA)] ["a"] =
      tceErr ("has unexpected extra key(s): " ++
        format_dict_keys (td_extra_keys
          [("a", Ann.intA), ("b", Ann.notRequiredA Ann.intA)]
          [(PyVal.str "a", PyVal.int 1), (PyVal.str "c", PyVal.int 2)])) :=
  (c6_check_typed_dict_spec recheck0 (fun _ => Option.none)
    [("a", Ann.intA), ("b", Ann.notRequiredA Ann.intA)] ["a"]
    [(PyVal.str "a", PyVal.int 1), (PyVal.str "c", PyVal.int 2)]).1
    (by decide)

end TypeguardModel

